import Mathlib

/-!
Shallow embedding of the thread-mapping and message-routing core of the
Telegram-Instagram bridge repository.

The active persistence layer is `src/core/database.js` (the file imported by
`src/core/telegram.js`, `src/core/instagram.js` and `src/modules/bridge.js`);
it is embedded in namespace `Database`.  The repository also carries a second,
unreferenced `Database` implementation (`src/unnamed/part_003`, whose relative
imports do not resolve against this tree); it is embedded in namespace
`DatabaseAlt` so that claims citing both variants can be compared.

Timestamps are modelled as natural numbers (milliseconds, as produced by
`Date.now()` / `new Date()`); Instagram raw event timestamps are microseconds,
mirroring the `parseInt(message.timestamp) / 1000` conversion in the source.
-/

namespace BridgeModel

/-- The document written to the `thread_mappings` collection by the active
store (`src/core/database.js`, `saveThreadMapping`).  The object literal there
has exactly the fields `instagramThreadId`, `telegramThreadId`,
`instagramUsername`, `createdAt`, `lastActivity`; MongoDB documents are
schemaless, and no code path of the active store ever writes a message-count
field, so `messageCount` is modelled as an `Option` that records whether the
field is present in the document. -/
structure ThreadMapping where
  instagramThreadId : String
  telegramThreadId : Nat
  instagramUsername : String
  createdAt : Nat
  lastActivity : Nat
  messageCount : Option Nat
deriving DecidableEq, Repr

/-- A declared MongoDB index: collection, indexed fields, uniqueness flag. -/
structure IndexSpec where
  collection : String
  fields : List String
  unique : Bool
deriving DecidableEq, Repr

namespace Database

/-- The indexes declared by `createIndexes` in `src/core/database.js`:
a unique index on `thread_mappings.instagramThreadId` and a non-unique
descending index on `messages.timestamp`.  No index of any kind is declared
on `telegramThreadId`. -/
def indexSpecs : List IndexSpec :=
  [ { collection := "thread_mappings", fields := ["instagramThreadId"], unique := true },
    { collection := "messages", fields := ["timestamp"], unique := false } ]

/-- The document built by `saveThreadMapping` in `src/core/database.js`:
`createdAt` and `lastActivity` are both set to the current time and no
message-count field is written. -/
def newMapping (igTid : String) (tgTid : Nat) (username : String) (now : Nat) : ThreadMapping :=
  { instagramThreadId := igTid
    telegramThreadId := tgTid
    instagramUsername := username
    createdAt := now
    lastActivity := now
    messageCount := none }

/-- MongoDB `replaceOne(filter, doc, upsert: true)` on a collection modelled
as a list in insertion order: the first document matching the filter is
replaced; if none matches, the document is appended. -/
def replaceOneUpsert (igTid : String) (doc : ThreadMapping) :
    List ThreadMapping → List ThreadMapping
  | [] => [doc]
  | x :: xs =>
      if x.instagramThreadId = igTid then doc :: xs
      else x :: replaceOneUpsert igTid doc xs

/-- The active store's `saveThreadMapping`: a `replaceOne` upsert keyed on
`instagramThreadId`.  It never fails: an existing mapping for the same
Instagram thread is silently replaced. -/
def saveThreadMapping (igTid : String) (tgTid : Nat) (username : String) (now : Nat)
    (s : List ThreadMapping) : List ThreadMapping :=
  replaceOneUpsert igTid (newMapping igTid tgTid username now) s

/-- The active store's `getThreadMapping`: `findOne` keyed on
`instagramThreadId` (first matching document). -/
def getThreadMapping (s : List ThreadMapping) (igTid : String) : Option ThreadMapping :=
  s.find? (fun m => m.instagramThreadId = igTid)

/-- The active store's `getThreadMappingByTelegram`: `findOne` keyed on
`telegramThreadId`. -/
def getThreadMappingByTelegram (s : List ThreadMapping) (tgTid : Nat) : Option ThreadMapping :=
  s.find? (fun m => m.telegramThreadId = tgTid)

/-- The active store's `updateThreadActivity`: `updateOne` with a bare
`$set lastActivity` update — no `$inc`, no other field touched, and a no-op
when no document matches. -/
def updateThreadActivity (igTid : String) (now : Nat) :
    List ThreadMapping → List ThreadMapping
  | [] => []
  | x :: xs =>
      if x.instagramThreadId = igTid then { x with lastActivity := now } :: xs
      else x :: updateThreadActivity igTid now xs

/-- The active store's `getAllMappings`: `find({}).toArray()` with no sort
stage, returning the collection in its stored (insertion) order. -/
def getAllMappings (s : List ThreadMapping) : List ThreadMapping := s

end Database

/-- The document written by the alternate store (`src/unnamed/part_003`),
which does carry a `message_count` field initialised to `0`. -/
structure AltMapping where
  instagram_thread_id : String
  telegram_topic_id : Nat
  username : String
  created_at : Nat
  last_activity : Nat
  message_count : Nat
deriving DecidableEq, Repr

/-- Failure raised by MongoDB `insertOne` when a unique index is violated. -/
inductive DbError where
  | duplicateKey
deriving DecidableEq, Repr

namespace DatabaseAlt

/-- The indexes declared by `createIndexes` in `src/unnamed/part_003`:
unique indexes on both `instagram_thread_id` and `telegram_topic_id` of
`thread_mappings`, plus message and user indexes. -/
def indexSpecs : List IndexSpec :=
  [ { collection := "thread_mappings", fields := ["instagram_thread_id"], unique := true },
    { collection := "thread_mappings", fields := ["telegram_topic_id"], unique := true },
    { collection := "thread_mappings", fields := ["created_at"], unique := false },
    { collection := "messages", fields := ["message_id", "platform"], unique := true },
    { collection := "messages", fields := ["thread_id"], unique := false },
    { collection := "messages", fields := ["timestamp"], unique := false },
    { collection := "users", fields := ["instagram_user_id"], unique := true },
    { collection := "users", fields := ["username"], unique := false } ]

/-- The alternate store's `saveThreadMapping`: a plain `insertOne`, which the
unique indexes on `instagram_thread_id` and `telegram_topic_id` make fail with
a duplicate-key error when either key is already present. -/
def saveThreadMapping (igTid : String) (tgTid : Nat) (username : String) (now : Nat)
    (s : List AltMapping) : Except DbError (List AltMapping) :=
  if s.any (fun m => m.instagram_thread_id = igTid) ||
     s.any (fun m => m.telegram_topic_id = tgTid) then
    .error .duplicateKey
  else
    .ok (s ++ [{ instagram_thread_id := igTid
                 telegram_topic_id := tgTid
                 username := username
                 created_at := now
                 last_activity := now
                 message_count := 0 }])

/-- The alternate store's `updateThreadActivity`: `updateOne` with
`$set last_activity` and `$inc message_count`. -/
def updateThreadActivity (igTid : String) (now : Nat) :
    List AltMapping → List AltMapping
  | [] => []
  | x :: xs =>
      if x.instagram_thread_id = igTid then
        { x with last_activity := now, message_count := x.message_count + 1 } :: xs
      else x :: updateThreadActivity igTid now xs

/-- The alternate store's `getThreadMapping`. -/
def getThreadMapping (s : List AltMapping) (igTid : String) : Option AltMapping :=
  s.find? (fun m => m.instagram_thread_id = igTid)

/-- Descending insertion by `last_activity`, modelling the MongoDB sort stage
`sort(.. last_activity: -1 ..)` of `getAllThreadMappings`. -/
def insertByActivity (m : AltMapping) : List AltMapping → List AltMapping
  | [] => [m]
  | x :: xs =>
      if m.last_activity ≤ x.last_activity then x :: insertByActivity m xs
      else m :: x :: xs

/-- The alternate store's `getAllThreadMappings`: all documents sorted by
`last_activity` descending (most-recently-active first). -/
def getAllThreadMappings (s : List AltMapping) : List AltMapping :=
  s.foldr insertByActivity []

end DatabaseAlt

/-- An Instagram attachment as normalized by `extractMediaFromMessage` in
`src/core/instagram.js`: a type tag (`image`, `video` or `voice`) and a URL. -/
structure IgMedia where
  mtype : String
  url : String
deriving DecidableEq, Repr

/-- A normalized Instagram inbound message (`processedMessage` built by
`handleMessage` in `src/core/instagram.js`).  The `text` field is
`message.text || ''`, so an absent text is the empty string. -/
structure IgMessage where
  threadId : String
  senderId : Nat
  senderUsername : String
  text : String
  timestampUs : Nat
  media : List IgMedia
deriving DecidableEq, Repr

/-- A Telegram attachment as normalized by `extractMediaFromMessage` in
`src/core/telegram.js`: a type tag (`photo`, `video`, `voice`, `document`
or `sticker`) and the Telegram file id. -/
structure TgMedia where
  mtype : String
  fileId : String
deriving DecidableEq, Repr

/-- A normalized Telegram inbound message (`processedMessage` built by
`registerHandlers` in `src/core/telegram.js`).  The `text` field is
`msg.text || msg.caption || ''`; `threadId` is `msg.message_thread_id || null`,
so messages posted outside a forum topic carry `none`. -/
structure TgMessage where
  text : String
  sender : String
  threadId : Option Nat
  media : List TgMedia
deriving DecidableEq, Repr

/-- An outbound side effect requested by the bridge: calls into
`telegramBot` and `instagramBot` send primitives as they appear in
`src/modules/bridge.js`. -/
inductive Action where
  | tgCreateForumTopic (chatId : String) (name : String)
  | tgSendMessage (chatId : String) (text : String) (threadId : Option Nat)
  | tgSendPhoto (chatId : String) (url : String) (threadId : Nat) (caption : String)
  | tgSendVideo (chatId : String) (url : String) (threadId : Nat) (caption : String)
  | tgSendVoice (chatId : String) (url : String) (threadId : Nat) (caption : String)
  | igSendText (threadId : String) (text : String)
  | igSendMedia (threadId : String) (fileUrl : String) (mediaType : String)
deriving DecidableEq, Repr

/-- The message header built by `forwardToTelegram`. -/
def igHeader (username : String) : String :=
  "📱 <b>@" ++ username ++ "</b>"

/-- The caption used for forwarded Instagram media: header plus body text
when the JS-truthy `instagramMessage.text` is nonempty, header alone
otherwise. -/
def igCaption (msg : IgMessage) : String :=
  if msg.text = "" then igHeader msg.senderUsername
  else igHeader msg.senderUsername ++ "\n" ++ msg.text

/-- The `telegramBot` send call attempted by `forwardToTelegram` for one
Instagram attachment: `sendPhoto` for `image`, `sendVideo` for `video`,
`sendVoice` for `voice`, and no call at all for any other type. -/
def tgMediaSendAction (chatId : String) (tgTid : Nat) (caption : String) (m : IgMedia) :
    Option Action :=
  if m.mtype = "image" then some (.tgSendPhoto chatId m.url tgTid caption)
  else if m.mtype = "video" then some (.tgSendVideo chatId m.url tgTid caption)
  else if m.mtype = "voice" then some (.tgSendVoice chatId m.url tgTid caption)
  else none

/-- One iteration of the media loop in `forwardToTelegram`.  The boolean
`ok` is the outcome oracle for the attempted send: on failure the catch
block sends a textual failure notice in place of the attachment.  When no
send is attempted (unknown type) nothing can fail and nothing is emitted. -/
def tgForwardItem (chatId : String) (tgTid : Nat) (h caption : String) (ok : Bool)
    (m : IgMedia) : List Action :=
  match tgMediaSendAction chatId tgTid caption m with
  | some a =>
      if ok then [a]
      else [.tgSendMessage chatId (h ++ "\n❌ Failed to forward " ++ m.mtype) (some tgTid)]
  | none => []

/-- The media loop of `forwardToTelegram`, with the per-attachment outcome
oracle indexed by position. -/
def tgForwardMediaLoop (chatId : String) (tgTid : Nat) (h caption : String)
    (ok : Nat → Bool) : Nat → List IgMedia → List Action
  | _, [] => []
  | i, m :: ms =>
      tgForwardItem chatId tgTid h caption (ok i) m ++
        tgForwardMediaLoop chatId tgTid h caption ok (i + 1) ms

/-- `BridgeModule.forwardToTelegram`: the header-prefixed body text is sent
first when the text is nonempty, then each attachment is attempted
independently. -/
def forwardToTelegram (chatId : String) (ok : Nat → Bool) (msg : IgMessage)
    (tgTid : Nat) : List Action :=
  (if msg.text = "" then []
   else [Action.tgSendMessage chatId (igHeader msg.senderUsername ++ "\n" ++ msg.text) (some tgTid)])
  ++ tgForwardMediaLoop chatId tgTid (igHeader msg.senderUsername) (igCaption msg) ok 0 msg.media

/-- One iteration of the media loop in `forwardToInstagram`.  The try block
first resolves the file URL via `telegramBot.getFile` and then sends `photo`
as image and `video` as video; any other type is resolved but not sent.
The oracle `ok` covers the whole per-attachment attempt (`getFile` plus
send); on failure the catch block sends a textual notice to the Instagram
thread. -/
def igForwardItem (fileUrl : String → String) (igTid : String) (ok : Bool)
    (m : TgMedia) : List Action :=
  if ok then
    if m.mtype = "photo" then [.igSendMedia igTid (fileUrl m.fileId) "image"]
    else if m.mtype = "video" then [.igSendMedia igTid (fileUrl m.fileId) "video"]
    else []
  else [.igSendText igTid ("❌ Failed to forward " ++ m.mtype ++ " from Telegram")]

/-- The media loop of `forwardToInstagram`. -/
def igForwardMediaLoop (fileUrl : String → String) (igTid : String)
    (ok : Nat → Bool) : Nat → List TgMedia → List Action
  | _, [] => []
  | i, m :: ms =>
      igForwardItem fileUrl igTid (ok i) m ++ igForwardMediaLoop fileUrl igTid ok (i + 1) ms

/-- `BridgeModule.forwardToInstagram`: nonempty body text is sent first,
then each attachment independently.  `fileUrl` abstracts the Telegram
file-id to download-URL resolution performed by `telegramBot.getFile`. -/
def forwardToInstagram (fileUrl : String → String) (ok : Nat → Bool)
    (msg : TgMessage) (igTid : String) : List Action :=
  (if msg.text = "" then [] else [Action.igSendText igTid msg.text])
  ++ igForwardMediaLoop fileUrl igTid ok 0 msg.media

/-- The introduction message posted into a freshly created forum topic by
`handleInstagramMessage`. -/
def welcomeText (username igTid : String) : String :=
  "🆕 <b>New Instagram conversation</b>\n👤 User: @" ++ username ++
    "\n🔗 Thread ID: " ++ igTid

/-- Bridge-side state: the `thread_mappings` collection of the active store,
plus the next forum-topic id Telegram will hand out.  Modelling
`telegramBot.createForumTopic` as incrementing a counter encodes the
environment assumption that Telegram returns a fresh, distinct topic id for
every created topic. -/
structure BState where
  store : List ThreadMapping
  nextTopic : Nat
deriving DecidableEq, Repr

/-- `BridgeModule.handleInstagramMessage`: look up the mapping for the
source thread; when absent, create a forum topic named after the sender,
save the mapping and post the introduction message; in both cases touch the
mapping's activity and forward the message into the mapped topic. -/
def handleInstagramMessage (chatId : String) (now : Nat) (ok : Nat → Bool)
    (msg : IgMessage) (s : BState) : List Action × BState :=
  match Database.getThreadMapping s.store msg.threadId with
  | some m =>
      ( forwardToTelegram chatId ok msg m.telegramThreadId,
        { s with store := Database.updateThreadActivity msg.threadId now s.store } )
  | none =>
      let tgTid := s.nextTopic
      let store1 := Database.saveThreadMapping msg.threadId tgTid msg.senderUsername now s.store
      ( Action.tgCreateForumTopic chatId ("@" ++ msg.senderUsername)
          :: Action.tgSendMessage chatId (welcomeText msg.senderUsername msg.threadId) (some tgTid)
          :: forwardToTelegram chatId ok msg tgTid,
        { store := Database.updateThreadActivity msg.threadId now store1,
          nextTopic := s.nextTopic + 1 } )

/-- First-character test modelling the JS `text.startsWith(c)` calls for the
one-character command prefixes. -/
def startsWithChar (s : String) (c : Char) : Bool :=
  match s.data with
  | [] => false
  | d :: _ => d = c

/-- The command guard of `handleTelegramMessage`:
`message.text.startsWith('/') || message.text.startsWith('.')`.  This is
also exactly `MessageValidator.isCommand` from `src/helpers/validators.js`
on a (necessarily non-null) string. -/
def isCommandText (text : String) : Bool :=
  startsWithChar text '/' || startsWithChar text '.'

/-- The rejection notice sent when a Telegram message arrives in a topic
with no stored mapping. -/
def noMappingNotice : String :=
  "❌ No Instagram thread mapping found for this topic."

/-- `BridgeModule.handleTelegramMessage`: command-prefixed text returns
immediately; otherwise the mapping is looked up by the message's topic id,
a missing mapping produces only the rejection notice, and a present mapping
forwards to the mapped Instagram thread.  No path of this handler writes to
the thread-mapping store. -/
def handleTelegramMessage (chatId : String) (fileUrl : String → String) (ok : Nat → Bool)
    (msg : TgMessage) (tid : Nat) (store : List ThreadMapping) :
    List Action × List ThreadMapping :=
  if isCommandText msg.text then ([], store)
  else
    match Database.getThreadMappingByTelegram store tid with
    | none => ([Action.tgSendMessage chatId noMappingNotice (some tid)], store)
    | some m => (forwardToInstagram fileUrl ok msg m.instagramThreadId, store)

/-- The Telegram dispatch registered by `BridgeModule.initialize`:
`if (this.isActive && message.threadId)` — the handler only runs for an
active bridge and a message that carries a (truthy) topic id. -/
def bridgeOnTelegramMessage (isActive : Bool) (chatId : String)
    (fileUrl : String → String) (ok : Nat → Bool) (msg : TgMessage)
    (store : List ThreadMapping) : List Action × List ThreadMapping :=
  if isActive then
    match msg.threadId with
    | some tid => handleTelegramMessage chatId fileUrl ok msg tid store
    | none => ([], store)
  else ([], store)

/-- A raw Telegram update as seen by the `message` listener in
`src/core/telegram.js` before normalization. -/
structure RawTgMessage where
  chatId : Int
  dateS : Nat
  text : Option String
  caption : Option String
  fromUsername : String
  messageThreadId : Option Nat
  media : List TgMedia
deriving DecidableEq, Repr

/-- The guard pipeline of `registerHandlers` in `src/core/telegram.js`:
messages from a chat other than the configured one are dropped, messages
whose age `Date.now() - msg.date * 1000` exceeds 60000 ms are dropped, and
the survivors are normalized into a `TgMessage`.  (`msg.date` is in
seconds.)  Natural-number truncated subtraction agrees with the JS signed
subtraction on the `> 60000` test, since a negative JS age and a truncated
zero age both fail it. -/
def telegramNormalize (cfgChatId : Int) (nowMs : Nat) (raw : RawTgMessage) :
    Option TgMessage :=
  if raw.chatId ≠ cfgChatId then none
  else if nowMs - raw.dateS * 1000 > 60000 then none
  else some
    { text := raw.text.getD (raw.caption.getD "")
      sender := raw.fromUsername
      threadId := raw.messageThreadId
      media := raw.media }

/-- One Telegram platform event processed end to end through the adapter
guards and the bridge dispatch, returning the requested outbound actions and
the resulting thread-mapping store. -/
def processTelegramEvent (cfgChatId : Int) (chatIdStr : String) (nowMs : Nat)
    (isActive : Bool) (fileUrl : String → String) (ok : Nat → Bool)
    (raw : RawTgMessage) (store : List ThreadMapping) :
    List Action × List ThreadMapping :=
  match telegramNormalize cfgChatId nowMs raw with
  | none => ([], store)
  | some msg => bridgeOnTelegramMessage isActive chatIdStr fileUrl ok msg store

/-- `InstagramBot.isNewMessage` from `src/core/instagram.js`: the raw
microsecond timestamp is converted to milliseconds, compared strictly
against the `lastMessageCheck` high-water mark, and the mark is advanced on
acceptance.  Returns the decision and the updated mark. -/
def isNewMessage (lastMessageCheck : Nat) (timestampUs : Nat) : Bool × Nat :=
  let messageTime := timestampUs / 1000
  if lastMessageCheck < messageTime then (true, messageTime) else (false, lastMessageCheck)

/-- The initial high-water mark set in the `InstagramBot` constructor:
`new Date(Date.now() - 60000)`. -/
def igInitialLastCheck (startMs : Nat) : Nat := startMs - 60000

/-- One Instagram realtime event processed end to end: the `message`
listener drops events not accepted by `isNewMessage`, `handleMessage` drops
events sent by the bridged account itself, and surviving events reach
`BridgeModule.handleInstagramMessage`.  Returns the actions, the bridge
state and the updated high-water mark. -/
def processInstagramEvent (chatId : String) (now : Nat) (ok : Nat → Bool)
    (selfId : Nat) (lastCheck : Nat) (msg : IgMessage) (s : BState) :
    (List Action × BState) × Nat :=
  let r := isNewMessage lastCheck msg.timestampUs
  if r.1 then
    if msg.senderId = selfId then (([], s), r.2)
    else (handleInstagramMessage chatId now ok msg s, r.2)
  else (([], s), r.2)

/-- Control point of one in-flight `handleInstagramMessage` execution for
the race model.  The `await` boundaries of the source are the atomic-step
boundaries: `start` is before the `getThreadMapping` await, `needTopic` is
between that await and the `createForumTopic` await, `created` is between
topic creation and the `saveThreadMapping` await, and `done` records the
topic the handler will forward into. -/
inductive HPhase where
  | start
  | foundMapping (tgTid : Nat)
  | needTopic
  | created (tgTid : Nat)
  | done (tgTid : Nat)
deriving DecidableEq, Repr

/-- Shared state for the race model: the store, Telegram's fresh-topic
counter, and a count of forum topics actually created. -/
structure RaceShared where
  store : List ThreadMapping
  nextTopic : Nat
  containersCreated : Nat
deriving DecidableEq, Repr

/-- One atomic step of a `handleInstagramMessage` execution for source
thread `igTid`, exactly following the source: an unguarded lookup, then
— when the lookup missed — topic creation followed by an upsert save that
cannot fail. -/
def raceStep (igTid username : String) (now : Nat) (ph : HPhase) (sh : RaceShared) :
    HPhase × RaceShared :=
  match ph with
  | .start =>
      match Database.getThreadMapping sh.store igTid with
      | some m => (.foundMapping m.telegramThreadId, sh)
      | none => (.needTopic, sh)
  | .foundMapping t => (.done t, sh)
  | .needTopic =>
      ( .created sh.nextTopic,
        { sh with nextTopic := sh.nextTopic + 1,
                  containersCreated := sh.containersCreated + 1 } )
  | .created t =>
      ( .done t,
        { sh with store := Database.saveThreadMapping igTid t username now sh.store } )
  | .done t => (.done t, sh)

/-- State of two concurrent handler executions for the same source thread. -/
structure RaceState where
  shared : RaceShared
  h1 : HPhase
  h2 : HPhase
deriving DecidableEq, Repr

/-- Run an interleaving of the two handler executions: `true` steps the
first handler, `false` the second. -/
def runRace (igTid username : String) (now : Nat) :
    List Bool → RaceState → RaceState
  | [], st => st
  | b :: rest, st =>
      if b then
        let r := raceStep igTid username now st.h1 st.shared
        runRace igTid username now rest { st with h1 := r.1, shared := r.2 }
      else
        let r := raceStep igTid username now st.h2 st.shared
        runRace igTid username now rest { st with h2 := r.1, shared := r.2 }

/-- The initial race state: empty store, no topics created, both handlers
about to run their lookup. -/
def raceInit : RaceState :=
  { shared := { store := [], nextTopic := 0, containersCreated := 0 },
    h1 := .start, h2 := .start }

/-- Recognizer for Telegram media-send actions (`sendPhoto`, `sendVideo`,
`sendVoice`). -/
def isMediaSend : Action → Bool
  | .tgSendPhoto _ _ _ _ => true
  | .tgSendVideo _ _ _ _ => true
  | .tgSendVoice _ _ _ _ => true
  | _ => false

/-- Recognizer for Telegram text-message sends. -/
def isTgMessageSend : Action → Bool
  | .tgSendMessage _ _ _ => true
  | _ => false

/-- Recognizer for Instagram text sends. -/
def isIgTextSend : Action → Bool
  | .igSendText _ _ => true
  | _ => false

/-- Recognizer for Instagram media sends. -/
def isIgMediaSend : Action → Bool
  | .igSendMedia _ _ _ => true
  | _ => false

/-- Instagram attachment types for which `forwardToTelegram` attempts a
send (and which can therefore fail). -/
def supportedIg (m : IgMedia) : Bool :=
  m.mtype = "image" || m.mtype = "video" || m.mtype = "voice"

/-- Telegram attachment types which `forwardToInstagram` actually sends. -/
def supportedTg (m : TgMedia) : Bool :=
  m.mtype = "photo" || m.mtype = "video"

/-- Source-thread ids of a store, in stored order. -/
def srcIds (s : List ThreadMapping) : List String :=
  s.map (fun m => m.instagramThreadId)

/-- Destination-topic ids of a store, in stored order. -/
def topIds (s : List ThreadMapping) : List Nat :=
  s.map (fun m => m.telegramThreadId)

/-- Every field of a mapping except `lastActivity`, used to state that the
activity touch changes nothing else. -/
def staticPart (m : ThreadMapping) : String × Nat × String × Nat × Option Nat :=
  (m.instagramThreadId, m.telegramThreadId, m.instagramUsername, m.createdAt, m.messageCount)

/-- Most-recently-active-first order on alternate-store documents. -/
def descByActivity (a b : AltMapping) : Prop :=
  b.last_activity ≤ a.last_activity

/-- Sequential processing of a stream of inbound Instagram messages through
`handleInstagramMessage`, threading the bridge state.  This is the §5
scheduling model of one adapter: a single event stream processed one
message at a time. -/
def runInstagramSeq (chatId : String) (now : Nat) (ok : Nat → Bool) :
    List IgMessage → BState → BState
  | [], s => s
  | m :: ms, s =>
      runInstagramSeq chatId now ok ms (handleInstagramMessage chatId now ok m s).2

/-- Invariant of the bridge state under sequential Instagram processing:
source ids are pairwise distinct, topic ids are pairwise distinct, and all
allocated topic ids are below the allocator counter. -/
structure BInv (s : BState) : Prop where
  srcNodup : (srcIds s.store).Nodup
  topNodup : (topIds s.store).Nodup
  topLt : ∀ t ∈ topIds s.store, t < s.nextTopic

/-- The set of source-thread ids currently mapped. -/
def srcFinset (s : BState) : Finset String :=
  (srcIds s.store).toFinset

theorem staticPart_updateThreadActivity (igTid : String) (now : Nat)
    (l : List ThreadMapping) :
    (Database.updateThreadActivity igTid now l).map staticPart = l.map staticPart := by
  induction l with
  | nil => rfl
  | cons x xs ih =>
      by_cases h : x.instagramThreadId = igTid
      · simp [Database.updateThreadActivity, h, staticPart]
      · simp [Database.updateThreadActivity, h, ih]

theorem srcIds_updateThreadActivity (igTid : String) (now : Nat)
    (l : List ThreadMapping) :
    srcIds (Database.updateThreadActivity igTid now l) = srcIds l := by
  induction l with
  | nil => rfl
  | cons x xs ih =>
      by_cases h : x.instagramThreadId = igTid
      · simp [Database.updateThreadActivity, h, srcIds]
      · simp [Database.updateThreadActivity, h, srcIds] at ih ⊢
        exact ih

theorem topIds_updateThreadActivity (igTid : String) (now : Nat)
    (l : List ThreadMapping) :
    topIds (Database.updateThreadActivity igTid now l) = topIds l := by
  induction l with
  | nil => rfl
  | cons x xs ih =>
      by_cases h : x.instagramThreadId = igTid
      · simp [Database.updateThreadActivity, h, topIds]
      · simp [Database.updateThreadActivity, h, topIds] at ih ⊢
        exact ih

theorem getThreadMapping_eq_none_iff (l : List ThreadMapping) (igTid : String) :
    Database.getThreadMapping l igTid = none ↔ ∀ m ∈ l, m.instagramThreadId ≠ igTid := by
  simp [Database.getThreadMapping, List.find?_eq_none]

theorem getThreadMapping_mem_srcIds (l : List ThreadMapping) (igTid : String)
    (m : ThreadMapping) (h : Database.getThreadMapping l igTid = some m) :
    igTid ∈ srcIds l := by
  have hmem := List.mem_of_find?_eq_some h
  have heq : m.instagramThreadId = igTid := by
    have := List.find?_some h
    simpa using this
  subst heq
  exact List.mem_map_of_mem _ hmem

theorem updateThreadActivity_of_absent (igTid : String) (now : Nat)
    (l : List ThreadMapping) (h : ∀ m ∈ l, m.instagramThreadId ≠ igTid) :
    Database.updateThreadActivity igTid now l = l := by
  induction l with
  | nil => rfl
  | cons x xs ih =>
      have hx : x.instagramThreadId ≠ igTid := h x (List.mem_cons_self x xs)
      simp only [Database.updateThreadActivity, if_neg hx]
      rw [ih (fun m hm => h m (List.mem_cons_of_mem x hm))]

theorem getThreadMapping_updateThreadActivity (igTid : String) (now : Nat)
    (l : List ThreadMapping) :
    Database.getThreadMapping (Database.updateThreadActivity igTid now l) igTid =
      (Database.getThreadMapping l igTid).map (fun m => { m with lastActivity := now }) := by
  induction l with
  | nil => rfl
  | cons x xs ih =>
      by_cases h : x.instagramThreadId = igTid
      · simp [Database.updateThreadActivity, Database.getThreadMapping, h, List.find?]
      · simp only [Database.updateThreadActivity, if_neg h]
        simp only [Database.getThreadMapping, List.find?] at ih ⊢
        rw [show (decide (x.instagramThreadId = igTid)) = false by simpa using h]
        exact ih

theorem replaceOneUpsert_of_absent (igTid : String) (doc : ThreadMapping)
    (l : List ThreadMapping) (h : ∀ m ∈ l, m.instagramThreadId ≠ igTid) :
    Database.replaceOneUpsert igTid doc l = l ++ [doc] := by
  induction l with
  | nil => rfl
  | cons x xs ih =>
      have hx : x.instagramThreadId ≠ igTid := h x (List.mem_cons_self x xs)
      simp only [Database.replaceOneUpsert, if_neg hx, List.cons_append]
      rw [ih (fun m hm => h m (List.mem_cons_of_mem x hm))]

theorem getThreadMapping_replaceOneUpsert (igTid : String) (doc : ThreadMapping)
    (hdoc : doc.instagramThreadId = igTid) (l : List ThreadMapping) :
    Database.getThreadMapping (Database.replaceOneUpsert igTid doc l) igTid = some doc := by
  induction l with
  | nil => simp [Database.replaceOneUpsert, Database.getThreadMapping, List.find?, hdoc]
  | cons x xs ih =>
      by_cases h : x.instagramThreadId = igTid
      · simp [Database.replaceOneUpsert, Database.getThreadMapping, h, List.find?, hdoc]
      · simp only [Database.replaceOneUpsert, if_neg h]
        simp only [Database.getThreadMapping, List.find?] at ih ⊢
        rw [show (decide (x.instagramThreadId = igTid)) = false by simpa using h]
        exact ih

theorem replaceOneUpsert_length (igTid : String) (doc : ThreadMapping)
    (l : List ThreadMapping) :
    (Database.replaceOneUpsert igTid doc l).length =
      if l.any (fun m => m.instagramThreadId = igTid) then l.length else l.length + 1 := by
  induction l with
  | nil => simp [Database.replaceOneUpsert]
  | cons x xs ih =>
      by_cases h : x.instagramThreadId = igTid
      · simp [Database.replaceOneUpsert, h]
      · simp only [Database.replaceOneUpsert, if_neg h, List.length_cons, List.any_cons]
        rw [show (decide (x.instagramThreadId = igTid)) = false by simpa using h]
        simp only [Bool.false_or]
        rw [ih]
        by_cases hall : xs.any (fun m => m.instagramThreadId = igTid) <;> simp [hall]

theorem mem_replaceOneUpsert_of_other (igTid : String) (doc : ThreadMapping)
    (l : List ThreadMapping) (m : ThreadMapping) (hm : m ∈ l)
    (hne : m.instagramThreadId ≠ igTid) :
    m ∈ Database.replaceOneUpsert igTid doc l := by
  induction l with
  | nil => cases hm
  | cons x xs ih =>
      by_cases h : x.instagramThreadId = igTid
      · simp only [Database.replaceOneUpsert, if_pos h]
        rcases List.mem_cons.mp hm with rfl | hx
        · exact absurd h hne
        · exact List.mem_cons_of_mem _ hx
      · simp only [Database.replaceOneUpsert, if_neg h]
        rcases List.mem_cons.mp hm with rfl | hx
        · exact List.mem_cons_self _ _
        · exact List.mem_cons_of_mem _ (ih hx)

theorem insertByActivity_perm (m : AltMapping) (l : List AltMapping) :
    (DatabaseAlt.insertByActivity m l).Perm (m :: l) := by
  induction l with
  | nil => exact List.Perm.refl _
  | cons x xs ih =>
      by_cases h : m.last_activity ≤ x.last_activity
      · simp only [DatabaseAlt.insertByActivity, if_pos h]
        exact (ih.cons x).trans (List.Perm.swap m x xs)
      · simp only [DatabaseAlt.insertByActivity, if_neg h]
        exact List.Perm.refl _

theorem mem_insertByActivity (m : AltMapping) (l : List AltMapping) (y : AltMapping)
    (hy : y ∈ DatabaseAlt.insertByActivity m l) : y = m ∨ y ∈ l := by
  have := (insertByActivity_perm m l).mem_iff.mp hy
  simpa using this

theorem insertByActivity_pairwise (m : AltMapping) (l : List AltMapping)
    (hl : l.Pairwise descByActivity) :
    (DatabaseAlt.insertByActivity m l).Pairwise descByActivity := by
  induction l with
  | nil => simp [DatabaseAlt.insertByActivity]
  | cons x xs ih =>
      rcases List.pairwise_cons.mp hl with ⟨hx, hxs⟩
      by_cases h : m.last_activity ≤ x.last_activity
      · simp only [DatabaseAlt.insertByActivity, if_pos h]
        refine List.pairwise_cons.mpr ⟨?_, ih hxs⟩
        intro y hy
        rcases mem_insertByActivity m xs y hy with rfl | hmem
        · exact h
        · exact hx y hmem
      · simp only [DatabaseAlt.insertByActivity, if_neg h]
        refine List.pairwise_cons.mpr ⟨?_, hl⟩
        intro y hy
        rcases List.mem_cons.mp hy with rfl | hmem
        · exact Nat.le_of_not_le h
        · exact Nat.le_trans (hx y hmem) (Nat.le_of_not_le h)

theorem getAllThreadMappings_perm (s : List AltMapping) :
    (DatabaseAlt.getAllThreadMappings s).Perm s := by
  induction s with
  | nil => exact List.Perm.refl _
  | cons x xs ih =>
      exact (insertByActivity_perm x (xs.foldr DatabaseAlt.insertByActivity [])).trans (ih.cons x)

theorem getAllThreadMappings_sorted (s : List AltMapping) :
    (DatabaseAlt.getAllThreadMappings s).Pairwise descByActivity := by
  induction s with
  | nil => simp [DatabaseAlt.getAllThreadMappings]
  | cons x xs ih =>
      exact insertByActivity_pairwise x _ ih

/-- C3 — the claim as stated is false for the active store: with a mapping
for `t1` already present, `saveThreadMapping` does not fail and does not
leave the existing mapping unchanged — it silently replaces it, rebinding
`t1` to topic 200 under the name `bob`. -/
theorem c3_counterexample :
    Database.saveThreadMapping "t1" 200 "bob" 9
        [Database.newMapping "t1" 100 "alice" 5] =
      [Database.newMapping "t1" 200 "bob" 9] ∧
    Database.saveThreadMapping "t1" 200 "bob" 9
        [Database.newMapping "t1" 100 "alice" 5] ≠
      [Database.newMapping "t1" 100 "alice" 5] := by
  constructor
  · rfl
  · decide

/-- C3 (amended) — the active store's `saveThreadMapping` is an upsert that
never fails: afterwards the source thread id resolves to the new mapping,
the store grows by one exactly when the source id was absent, and mappings
of other source ids survive.  The alternate store (`src/unnamed/part_003`)
is the variant that behaves as the claim states: its `insertOne` fails with
a duplicate-key error exactly when the source thread id (or the topic id)
is already mapped, and succeeds by appending otherwise. -/
theorem c3_save_upsert (igTid : String) (tgTid : Nat) (username : String) (now : Nat)
    (s : List ThreadMapping) (t : List AltMapping) :
    Database.getThreadMapping (Database.saveThreadMapping igTid tgTid username now s) igTid =
      some (Database.newMapping igTid tgTid username now) ∧
    (Database.saveThreadMapping igTid tgTid username now s).length =
      (if s.any (fun m => m.instagramThreadId = igTid) then s.length else s.length + 1) ∧
    (∀ m ∈ s, m.instagramThreadId ≠ igTid →
      m ∈ Database.saveThreadMapping igTid tgTid username now s) ∧
    (DatabaseAlt.saveThreadMapping igTid tgTid username now t = .error .duplicateKey ↔
      (t.any (fun m => m.instagram_thread_id = igTid) ||
       t.any (fun m => m.telegram_topic_id = tgTid)) = true) := by
  refine ⟨?_, ?_, ?_, ?_⟩
  · exact getThreadMapping_replaceOneUpsert igTid _ rfl s
  · exact replaceOneUpsert_length igTid _ s
  · intro m hm hne
    exact mem_replaceOneUpsert_of_other igTid _ s m hm hne
  · unfold DatabaseAlt.saveThreadMapping
    by_cases h : (t.any (fun m => m.instagram_thread_id = igTid) ||
        t.any (fun m => m.telegram_topic_id = tgTid)) = true
    · simp [h]
    · simp [h]

/-- C3 witness: a concrete run of the amended statement on a one-mapping
store and a one-document alternate store. -/
theorem c3_save_upsert_witness :
    Database.getThreadMapping
        (Database.saveThreadMapping "t1" 200 "bob" 9 [Database.newMapping "t2" 7 "carol" 1]) "t1" =
      some (Database.newMapping "t1" 200 "bob" 9) ∧
    (Database.saveThreadMapping "t1" 200 "bob" 9 [Database.newMapping "t2" 7 "carol" 1]).length = 2 := by
  have h := c3_save_upsert "t1" 200 "bob" 9 [Database.newMapping "t2" 7 "carol" 1] []
  refine ⟨h.1, ?_⟩
  have h2 := h.2.1
  simpa using h2

/-- C4 — the claim as stated is false for the active store: after the first
message creates the mapping and the bridge touches it, the stored document
still carries no message count at all (the field is absent both before and
after the touch), so the touch did not increment it to 1 as the claimed
counter behaviour requires. -/
theorem c4_counterexample :
    (Database.getThreadMapping (Database.saveThreadMapping "t1" 100 "alice" 5 []) "t1").map
        (fun m => m.messageCount) = some none ∧
    (Database.getThreadMapping
        (Database.updateThreadActivity "t1" 9 (Database.saveThreadMapping "t1" 100 "alice" 5 []))
        "t1").map (fun m => m.messageCount) = some none := by
  decide

/-- C4 (amended) — the active store's touch updates `lastActivity` of the
mapping for the given source thread and changes nothing else: every other
field of every document is untouched (in particular no message count is
ever written or incremented), and the touch is a no-op on a store with no
mapping for that id.  The alternate store's touch is the variant that also
increments `message_count` by exactly one. -/
theorem c4_touch (igTid : String) (now : Nat) (s : List ThreadMapping)
    (t : List AltMapping) :
    (Database.getThreadMapping s igTid = none →
      Database.updateThreadActivity igTid now s = s) ∧
    (Database.updateThreadActivity igTid now s).map staticPart = s.map staticPart ∧
    (∀ m, Database.getThreadMapping s igTid = some m →
      Database.getThreadMapping (Database.updateThreadActivity igTid now s) igTid =
        some { m with lastActivity := now }) ∧
    (∀ a, DatabaseAlt.getThreadMapping t igTid = some a →
      DatabaseAlt.getThreadMapping (DatabaseAlt.updateThreadActivity igTid now t) igTid =
        some { a with last_activity := now, message_count := a.message_count + 1 }) := by
  refine ⟨?_, staticPart_updateThreadActivity igTid now s, ?_, ?_⟩
  · intro hnone
    exact updateThreadActivity_of_absent igTid now s
      ((getThreadMapping_eq_none_iff s igTid).mp hnone)
  · intro m hm
    rw [getThreadMapping_updateThreadActivity, hm]
    rfl
  · intro a ha
    induction t with
    | nil => cases ha
    | cons x xs ih =>
        by_cases h : x.instagram_thread_id = igTid
        · have hx : a = x := by
            simp [DatabaseAlt.getThreadMapping, List.find?, h] at ha
            exact ha.symm
          subst hx
          simp [DatabaseAlt.updateThreadActivity, DatabaseAlt.getThreadMapping, List.find?, h]
        · simp only [DatabaseAlt.updateThreadActivity, if_neg h]
          simp only [DatabaseAlt.getThreadMapping, List.find?] at ha ih ⊢
          rw [show (decide (x.instagram_thread_id = igTid)) = false by simpa using h] at ha ⊢
          exact ih ha

/-- C4 witness: a concrete touch on a two-mapping store and on a concrete
alternate-store document whose counter moves from 3 to 4. -/
theorem c4_touch_witness :
    Database.updateThreadActivity "t9" 9
        [Database.newMapping "t1" 100 "alice" 5] = [Database.newMapping "t1" 100 "alice" 5] ∧
    DatabaseAlt.getThreadMapping
        (DatabaseAlt.updateThreadActivity "t1" 9
          [{ instagram_thread_id := "t1", telegram_topic_id := 100, username := "alice",
             created_at := 5, last_activity := 5, message_count := 3 }]) "t1" =
      some { instagram_thread_id := "t1", telegram_topic_id := 100, username := "alice",
             created_at := 5, last_activity := 9, message_count := 4 } := by
  have h := c4_touch "t9" 9 [Database.newMapping "t1" 100 "alice" 5]
    [{ instagram_thread_id := "t1", telegram_topic_id := 100, username := "alice",
       created_at := 5, last_activity := 5, message_count := 3 }]
  refine ⟨h.1 (by decide), ?_⟩
  have h4 := (c4_touch "t1" 9 [Database.newMapping "t1" 100 "alice" 5]
    [{ instagram_thread_id := "t1", telegram_topic_id := 100, username := "alice",
       created_at := 5, last_activity := 5, message_count := 3 }]).2.2.2
  exact h4 { instagram_thread_id := "t1", telegram_topic_id := 100, username := "alice",
             created_at := 5, last_activity := 5, message_count := 3 } (by decide)

/-- C9 — the claim as stated is false for the active store: `getAllMappings`
returns the collection in stored order with no sort stage, so a store whose
first-inserted mapping is the least recently active is returned with that
mapping first, not most-recently-active first. -/
theorem c9_counterexample :
    Database.getAllMappings
        [Database.newMapping "t1" 100 "alice" 1, Database.newMapping "t2" 200 "bob" 5] =
      [Database.newMapping "t1" 100 "alice" 1, Database.newMapping "t2" 200 "bob" 5] ∧
    (Database.newMapping "t1" 100 "alice" 1).lastActivity <
      (Database.newMapping "t2" 200 "bob" 5).lastActivity := by
  decide

/-- C9 (amended) — the active store's `getAllMappings` returns all stored
mappings in stored (insertion) order, with no activity-based ordering; the
alternate store's `getAllThreadMappings` is the variant that returns all
mappings most-recently-active first (a permutation of the store, pairwise
descending on `last_activity`). -/
theorem c9_list_order (s : List ThreadMapping) (t : List AltMapping) :
    Database.getAllMappings s = s ∧
    (DatabaseAlt.getAllThreadMappings t).Perm t ∧
    (DatabaseAlt.getAllThreadMappings t).Pairwise descByActivity := by
  exact ⟨rfl, getAllThreadMappings_perm t, getAllThreadMappings_sorted t⟩

theorem notMem_srcIds_of_lookup_none (s : List ThreadMapping) (igTid : String)
    (h : Database.getThreadMapping s igTid = none) : igTid ∉ srcIds s := by
  intro hmem
  rcases List.mem_map.mp hmem with ⟨m, hm, hEq⟩
  exact ((getThreadMapping_eq_none_iff s igTid).mp h m hm) hEq

theorem handleIg_step (chatId : String) (now : Nat) (ok : Nat → Bool)
    (msg : IgMessage) (s : BState) (h : BInv s) :
    BInv (handleInstagramMessage chatId now ok msg s).2 ∧
    srcFinset (handleInstagramMessage chatId now ok msg s).2 =
      insert msg.threadId (srcFinset s) := by
  cases hl : Database.getThreadMapping s.store msg.threadId with
  | some m =>
      have hstate : (handleInstagramMessage chatId now ok msg s).2 =
          { s with store := Database.updateThreadActivity msg.threadId now s.store } := by
        simp [handleInstagramMessage, hl]
      rw [hstate]
      have hsrc : srcIds (Database.updateThreadActivity msg.threadId now s.store) =
          srcIds s.store := srcIds_updateThreadActivity _ _ _
      have htop : topIds (Database.updateThreadActivity msg.threadId now s.store) =
          topIds s.store := topIds_updateThreadActivity _ _ _
      refine ⟨⟨?_, ?_, ?_⟩, ?_⟩
      · rw [hsrc]; exact h.srcNodup
      · rw [htop]; exact h.topNodup
      · intro t ht
        rw [htop] at ht
        exact h.topLt t ht
      · show (srcIds (Database.updateThreadActivity msg.threadId now s.store)).toFinset =
          insert msg.threadId (srcFinset s)
        rw [hsrc]
        exact (Finset.insert_eq_self.mpr
          (List.mem_toFinset.mpr (getThreadMapping_mem_srcIds _ _ m hl))).symm
  | none =>
      have habs : ∀ m ∈ s.store, m.instagramThreadId ≠ msg.threadId :=
        (getThreadMapping_eq_none_iff s.store msg.threadId).mp hl
      have hsave : Database.saveThreadMapping msg.threadId s.nextTopic msg.senderUsername now
          s.store = s.store ++ [Database.newMapping msg.threadId s.nextTopic msg.senderUsername now] :=
        replaceOneUpsert_of_absent _ _ _ habs
      have hstate : (handleInstagramMessage chatId now ok msg s).2 =
          { store := Database.updateThreadActivity msg.threadId now
              (s.store ++ [Database.newMapping msg.threadId s.nextTopic msg.senderUsername now]),
            nextTopic := s.nextTopic + 1 } := by
        simp [handleInstagramMessage, hl, hsave]
      rw [hstate]
      have hsrc : srcIds (Database.updateThreadActivity msg.threadId now
            (s.store ++ [Database.newMapping msg.threadId s.nextTopic msg.senderUsername now])) =
          srcIds s.store ++ [msg.threadId] := by
        rw [srcIds_updateThreadActivity]
        simp [srcIds, Database.newMapping]
      have htop : topIds (Database.updateThreadActivity msg.threadId now
            (s.store ++ [Database.newMapping msg.threadId s.nextTopic msg.senderUsername now])) =
          topIds s.store ++ [s.nextTopic] := by
        rw [topIds_updateThreadActivity]
        simp [topIds, Database.newMapping]
      have hnotmem : msg.threadId ∉ srcIds s.store := notMem_srcIds_of_lookup_none _ _ hl
      have htopnotmem : s.nextTopic ∉ topIds s.store := by
        intro hmem
        exact absurd (h.topLt _ hmem) (Nat.lt_irrefl _)
      refine ⟨⟨?_, ?_, ?_⟩, ?_⟩
      · rw [hsrc]
        simp [List.nodup_append, h.srcNodup, List.disjoint_singleton]
        intro hc
        exact hnotmem hc
      · rw [htop]
        simp [List.nodup_append, h.topNodup, List.disjoint_singleton]
        intro hc
        exact htopnotmem hc
      · intro t ht
        rw [htop] at ht
        rcases List.mem_append.mp ht with hold | hnew
        · exact Nat.lt_trans (h.topLt t hold) (Nat.lt_succ_self _)
        · simp at hnew
          subst hnew
          exact Nat.lt_succ_self _
      · show (srcIds (Database.updateThreadActivity msg.threadId now
            (s.store ++ [Database.newMapping msg.threadId s.nextTopic msg.senderUsername now]))).toFinset =
          insert msg.threadId (srcFinset s)
        rw [hsrc, List.toFinset_append]
        simp only [List.toFinset_cons, List.toFinset_nil, srcFinset]
        rw [Finset.union_comm]
        exact (Finset.insert_eq _ _).symm

theorem runIg_inv (chatId : String) (now : Nat) (ok : Nat → Bool)
    (msgs : List IgMessage) (s : BState) (h : BInv s) :
    BInv (runInstagramSeq chatId now ok msgs s) ∧
    srcFinset (runInstagramSeq chatId now ok msgs s) =
      srcFinset s ∪ (msgs.map (fun m => m.threadId)).toFinset := by
  induction msgs generalizing s with
  | nil => simpa [runInstagramSeq] using h
  | cons m ms ih =>
      obtain ⟨h1, h2⟩ := handleIg_step chatId now ok m s h
      obtain ⟨h3, h4⟩ := ih _ h1
      refine ⟨h3, ?_⟩
      rw [show runInstagramSeq chatId now ok (m :: ms) s =
        runInstagramSeq chatId now ok ms (handleInstagramMessage chatId now ok m s).2 from rfl]
      rw [h4, h2, List.map_cons, List.toFinset_cons, Finset.insert_union, Finset.union_insert]

/-- C1 — the claim as stated is false for the active store: the only unique
index it declares on `thread_mappings` covers `instagramThreadId`; no index
of any kind mentions `telegramThreadId`, and consequently the store itself
accepts two mappings with the same destination topic id (here both bound to
topic 100).  The bijection is therefore not enforced by uniqueness on both
fields. -/
theorem c1_counterexample :
    (Database.indexSpecs.filter (fun i => i.collection = "thread_mappings" && i.unique)).map
        (fun i => i.fields) = [["instagramThreadId"]] ∧
    Database.indexSpecs.any (fun i => i.fields.contains "telegramThreadId") = false ∧
    topIds (Database.saveThreadMapping "t2" 100 "bob" 6
        (Database.saveThreadMapping "t1" 100 "alice" 5 [])) = [100, 100] ∧
    ¬ (topIds (Database.saveThreadMapping "t2" 100 "bob" 6
        (Database.saveThreadMapping "t1" 100 "alice" 5 []))).Nodup := by
  decide

/-- C1 (amended) — for every sequence of inbound Instagram messages
processed sequentially by the bridge from the empty store, with the
forum-topic primitive returning fresh topic ids, the store ends with
exactly one mapping per distinct source thread id: the source ids are
pairwise distinct, the destination topic ids are pairwise distinct, and the
number of mappings equals the number of distinct source thread ids in the
stream.  This is guaranteed by the bridge's lookup-before-create discipline
and fresh topic allocation, not by store-level uniqueness on both fields:
the active store declares a unique index on the source field only. -/
theorem c1_store_bijection (chatId : String) (now : Nat) (ok : Nat → Bool)
    (msgs : List IgMessage) :
    (srcIds (runInstagramSeq chatId now ok msgs ⟨[], 0⟩).store).Nodup ∧
    (topIds (runInstagramSeq chatId now ok msgs ⟨[], 0⟩).store).Nodup ∧
    (runInstagramSeq chatId now ok msgs ⟨[], 0⟩).store.length =
      (msgs.map (fun m => m.threadId)).toFinset.card := by
  have h0 : BInv ⟨[], 0⟩ := ⟨List.nodup_nil, List.nodup_nil, by intro t ht; cases ht⟩
  obtain ⟨hinv, hset⟩ := runIg_inv chatId now ok msgs ⟨[], 0⟩ h0
  refine ⟨hinv.srcNodup, hinv.topNodup, ?_⟩
  have hcard : (srcFinset (runInstagramSeq chatId now ok msgs ⟨[], 0⟩)).card =
      (srcIds (runInstagramSeq chatId now ok msgs ⟨[], 0⟩).store).length :=
    List.toFinset_card_of_nodup hinv.srcNodup
  have hlen : (srcIds (runInstagramSeq chatId now ok msgs ⟨[], 0⟩).store).length =
      (runInstagramSeq chatId now ok msgs ⟨[], 0⟩).store.length := by
    simp [srcIds]
  rw [← hlen, ← hcard, hset]
  have hempty : srcFinset (⟨[], 0⟩ : BState) = ∅ := rfl
  rw [hempty, Finset.empty_union]

/-- C2 — the provisioning race the spec forbids is real in the code: with
two `handleInstagramMessage` executions for the same unmapped thread `t1`
interleaved so that both lookups run before either save (both lookups, then
handler 1 creates and saves, then handler 2 creates and saves), two forum
topics are created, both saves succeed (the upsert cannot fail), neither
handler re-resolves, and handler 1 is left forwarding into topic 0 — an
orphan container the final store maps nothing to. -/
theorem c2_race_two_containers :
    (runRace "t1" "alice" 5 [true, false, true, true, false, false] raceInit).shared.containersCreated = 2 ∧
    (runRace "t1" "alice" 5 [true, false, true, true, false, false] raceInit).shared.store =
      [Database.newMapping "t1" 1 "alice" 5] ∧
    (runRace "t1" "alice" 5 [true, false, true, true, false, false] raceInit).h1 = .done 0 ∧
    (runRace "t1" "alice" 5 [true, false, true, true, false, false] raceInit).h2 = .done 1 ∧
    Database.getThreadMappingByTelegram
      (runRace "t1" "alice" 5 [true, false, true, true, false, false] raceInit).shared.store 0 = none := by
  decide

/-- C5 — the claim as stated is false for the Instagram adapter: its filter
is a strictly-newer-than-high-water-mark test, not an age test.  Concretely,
with the bot started at millisecond 1000000 (high-water mark 940000) and an
event with microsecond timestamp 970000000 (millisecond time 970000)
received at millisecond 1060000 — 90 seconds old, well beyond the one-minute
window — the event is accepted, forwarded (the action list is nonempty) and
creates a brand-new mapping. -/
theorem c5_counterexample :
    1060000 - 970000000 / 1000 > 60000 ∧
    (processInstagramEvent "c" 1060000 (fun _ => true) 99 (igInitialLastCheck 1000000)
        { threadId := "t9", senderId := 7, senderUsername := "alice", text := "hi",
          timestampUs := 970000000, media := [] } ⟨[], 0⟩).1.1 ≠ [] ∧
    (processInstagramEvent "c" 1060000 (fun _ => true) 99 (igInitialLastCheck 1000000)
        { threadId := "t9", senderId := 7, senderUsername := "alice", text := "hi",
          timestampUs := 970000000, media := [] } ⟨[], 0⟩).1.2.store.length = 1 := by
  refine ⟨by decide, ?_, by decide⟩
  decide

/-- C5 (amended) — the Telegram adapter does implement the freshness filter
as claimed: any raw event older than 60000 ms at receipt is discarded
silently, producing no actions and leaving the store untouched.  The
Instagram adapter instead accepts an event exactly when its millisecond
timestamp strictly exceeds the last-seen-message high-water mark
(initialised to 60 s before startup), which does not bound the age of
accepted events. -/
theorem c5_freshness (cfgChatId : Int) (chatIdStr : String) (nowMs : Nat)
    (isActive : Bool) (fileUrl : String → String) (ok : Nat → Bool)
    (raw : RawTgMessage) (store : List ThreadMapping) (lastCheck tsUs : Nat)
    (hstale : nowMs - raw.dateS * 1000 > 60000) :
    processTelegramEvent cfgChatId chatIdStr nowMs isActive fileUrl ok raw store = ([], store) ∧
    ((isNewMessage lastCheck tsUs).1 = true ↔ lastCheck < tsUs / 1000) := by
  constructor
  · unfold processTelegramEvent telegramNormalize
    by_cases hchat : raw.chatId ≠ cfgChatId
    · simp [hchat]
    · simp [hchat, hstale]
  · unfold isNewMessage
    by_cases hlt : lastCheck < tsUs / 1000
    · simp [hlt]
    · simp [hlt]

/-- C5 witness: a Telegram event 61 s old is dropped, and the Instagram
acceptance test at mark 940000 accepts millisecond time 970000. -/
theorem c5_freshness_witness :
    processTelegramEvent 1 "c" 100000 true (fun f => f) (fun _ => true)
        { chatId := 1, dateS := 38, text := some "hello", caption := none,
          fromUsername := "op", messageThreadId := some 3, media := [] }
        [Database.newMapping "t1" 3 "alice" 5] =
      ([], [Database.newMapping "t1" 3 "alice" 5]) ∧
    ((isNewMessage 940000 970000000).1 = true ↔ 940000 < 970000000 / 1000) := by
  exact c5_freshness 1 "c" 100000 true (fun f => f) (fun _ => true)
    { chatId := 1, dateS := 38, text := some "hello", caption := none,
      fromUsername := "op", messageThreadId := some 3, media := [] }
    [Database.newMapping "t1" 3 "alice" 5] 940000 970000000 (by decide)

/-- C7 (confirmed) — an active-bridge Telegram message carrying a topic id
with no stored mapping, and not command-prefixed, produces exactly the
rejection notice back into its own topic: nothing is forwarded to Instagram
and the thread-mapping store is returned unchanged. -/
theorem c7_unmapped_topic_rejected (chatId : String) (fileUrl : String → String)
    (ok : Nat → Bool) (msg : TgMessage) (tid : Nat) (store : List ThreadMapping)
    (hth : msg.threadId = some tid)
    (hcmd : isCommandText msg.text = false)
    (hmap : Database.getThreadMappingByTelegram store tid = none) :
    bridgeOnTelegramMessage true chatId fileUrl ok msg store =
      ([Action.tgSendMessage chatId noMappingNotice (some tid)], store) := by
  unfold bridgeOnTelegramMessage
  rw [hth]
  simp only [if_pos rfl]
  unfold handleTelegramMessage
  rw [hcmd, hmap]
  rfl

/-- C7 witness: a concrete non-command message in unmapped topic 9 over a
store holding only topic 3. -/
theorem c7_unmapped_topic_rejected_witness :
    bridgeOnTelegramMessage true "c" (fun f => f) (fun _ => true)
        { text := "hello", sender := "op", threadId := some 9, media := [] }
        [Database.newMapping "t1" 3 "alice" 5] =
      ([Action.tgSendMessage "c" noMappingNotice (some 9)],
       [Database.newMapping "t1" 3 "alice" 5]) := by
  exact c7_unmapped_topic_rejected "c" (fun f => f) (fun _ => true)
    { text := "hello", sender := "op", threadId := some 9, media := [] } 9
    [Database.newMapping "t1" 3 "alice" 5] rfl (by decide) (by decide)

/-- C8 (confirmed) — a Telegram message whose text begins with the command
prefix `/` or `.` produces no actions at all and leaves the store
unchanged, for every bridge activity flag, every mapping state (in
particular a store that does map the topic) and any attachments. -/
theorem c8_commands_not_forwarded (isActive : Bool) (chatId : String)
    (fileUrl : String → String) (ok : Nat → Bool) (msg : TgMessage)
    (store : List ThreadMapping) (hcmd : isCommandText msg.text = true) :
    bridgeOnTelegramMessage isActive chatId fileUrl ok msg store = ([], store) := by
  unfold bridgeOnTelegramMessage
  cases isActive with
  | false => rfl
  | true =>
      simp only [if_pos rfl]
      cases msg.threadId with
      | none => rfl
      | some tid =>
          unfold handleTelegramMessage
          rw [hcmd]
          rfl

/-- C8 witness: a `/status` message with an attachment, in a topic that has
a valid mapping, is not forwarded. -/
theorem c8_commands_not_forwarded_witness :
    bridgeOnTelegramMessage true "c" (fun f => f) (fun _ => true)
        { text := "/status now", sender := "op", threadId := some 3,
          media := [{ mtype := "photo", fileId := "f1" }] }
        [Database.newMapping "t1" 3 "alice" 5] =
      ([], [Database.newMapping "t1" 3 "alice" 5]) := by
  exact c8_commands_not_forwarded true "c" (fun f => f) (fun _ => true)
    { text := "/status now", sender := "op", threadId := some 3,
      media := [{ mtype := "photo", fileId := "f1" }] }
    [Database.newMapping "t1" 3 "alice" 5] (by decide)

/-- C10 (confirmed) — a Telegram message with no topic id (`message_thread_id`
absent, i.e. posted in the general area of the chat) never reaches the
bridge handler: no actions are produced and the store is unchanged, for any
text, attachments or activity flag. -/
theorem c10_general_area_ignored (isActive : Bool) (chatId : String)
    (fileUrl : String → String) (ok : Nat → Bool) (msg : TgMessage)
    (store : List ThreadMapping) (hth : msg.threadId = none) :
    bridgeOnTelegramMessage isActive chatId fileUrl ok msg store = ([], store) := by
  unfold bridgeOnTelegramMessage
  cases isActive with
  | false => rfl
  | true =>
      simp only [if_pos rfl]
      rw [hth]
      simp

/-- C10 witness: a general-area message with text and a photo over a
nonempty store. -/
theorem c10_general_area_ignored_witness :
    bridgeOnTelegramMessage true "c" (fun f => f) (fun _ => true)
        { text := "hello", sender := "op", threadId := none,
          media := [{ mtype := "photo", fileId := "f1" }] }
        [Database.newMapping "t1" 3 "alice" 5] =
      ([], [Database.newMapping "t1" 3 "alice" 5]) := by
  exact c10_general_area_ignored true "c" (fun f => f) (fun _ => true)
    { text := "hello", sender := "op", threadId := none,
      media := [{ mtype := "photo", fileId := "f1" }] }
    [Database.newMapping "t1" 3 "alice" 5] rfl

theorem tgForwardItem_count_media (c : String) (t : Nat) (h cap : String) (ok : Bool)
    (m : IgMedia) :
    (tgForwardItem c t h cap ok m).countP isMediaSend =
      if supportedIg m && ok then 1 else 0 := by
  unfold tgForwardItem tgMediaSendAction supportedIg
  by_cases h1 : m.mtype = "image"
  · cases ok <;> simp [h1, isMediaSend, List.countP_cons, List.countP_nil]
  · by_cases h2 : m.mtype = "video"
    · cases ok <;> simp [h1, h2, isMediaSend, List.countP_cons, List.countP_nil]
    · by_cases h3 : m.mtype = "voice"
      · cases ok <;> simp [h1, h2, h3, isMediaSend, List.countP_cons, List.countP_nil]
      · cases ok <;> simp [h1, h2, h3, List.countP_nil]

theorem tgForwardItem_count_msg (c : String) (t : Nat) (h cap : String) (ok : Bool)
    (m : IgMedia) :
    (tgForwardItem c t h cap ok m).countP isTgMessageSend =
      if supportedIg m && !ok then 1 else 0 := by
  unfold tgForwardItem tgMediaSendAction supportedIg
  by_cases h1 : m.mtype = "image"
  · cases ok <;> simp [h1, isTgMessageSend, List.countP_cons, List.countP_nil]
  · by_cases h2 : m.mtype = "video"
    · cases ok <;> simp [h1, h2, isTgMessageSend, List.countP_cons, List.countP_nil]
    · by_cases h3 : m.mtype = "voice"
      · cases ok <;> simp [h1, h2, h3, isTgMessageSend, List.countP_cons, List.countP_nil]
      · cases ok <;> simp [h1, h2, h3, List.countP_nil]

theorem tgLoop_count_media (c : String) (t : Nat) (h cap : String) (ok : Nat → Bool)
    (ms : List IgMedia) : ∀ i : Nat,
    (tgForwardMediaLoop c t h cap ok i ms).countP isMediaSend =
      (List.enumFrom i ms).countP (fun p => supportedIg p.2 && ok p.1) := by
  induction ms with
  | nil => intro i; rfl
  | cons m ms ih =>
      intro i
      show (tgForwardItem c t h cap (ok i) m ++
        tgForwardMediaLoop c t h cap ok (i + 1) ms).countP isMediaSend = _
      rw [List.countP_append, tgForwardItem_count_media, ih (i + 1)]
      show _ = ((i, m) :: List.enumFrom (i + 1) ms).countP (fun p => supportedIg p.2 && ok p.1)
      rw [List.countP_cons]
      simp [Nat.add_comm]

theorem tgLoop_count_msg (c : String) (t : Nat) (h cap : String) (ok : Nat → Bool)
    (ms : List IgMedia) : ∀ i : Nat,
    (tgForwardMediaLoop c t h cap ok i ms).countP isTgMessageSend =
      (List.enumFrom i ms).countP (fun p => supportedIg p.2 && !(ok p.1)) := by
  induction ms with
  | nil => intro i; rfl
  | cons m ms ih =>
      intro i
      show (tgForwardItem c t h cap (ok i) m ++
        tgForwardMediaLoop c t h cap ok (i + 1) ms).countP isTgMessageSend = _
      rw [List.countP_append, tgForwardItem_count_msg, ih (i + 1)]
      show _ = ((i, m) :: List.enumFrom (i + 1) ms).countP (fun p => supportedIg p.2 && !(ok p.1))
      rw [List.countP_cons]
      simp [Nat.add_comm]

theorem tgForwardItem_mem_success (c : String) (t : Nat) (h cap : String)
    (m : IgMedia) (a : Action) (ha : tgMediaSendAction c t cap m = some a) :
    a ∈ tgForwardItem c t h cap true m := by
  unfold tgForwardItem
  rw [ha]
  exact List.mem_singleton.mpr rfl

theorem supportedIg_send_isSome (c : String) (t : Nat) (cap : String) (m : IgMedia)
    (hs : supportedIg m = true) : (tgMediaSendAction c t cap m).isSome := by
  unfold tgMediaSendAction
  unfold supportedIg at hs
  by_cases h1 : m.mtype = "image"
  · simp [h1]
  · by_cases h2 : m.mtype = "video"
    · simp [h1, h2]
    · by_cases h3 : m.mtype = "voice"
      · simp [h1, h2, h3]
      · simp [h1, h2, h3] at hs

theorem tgForwardItem_mem_failure (c : String) (t : Nat) (h cap : String)
    (m : IgMedia) (hs : supportedIg m = true) :
    Action.tgSendMessage c (h ++ "\n❌ Failed to forward " ++ m.mtype) (some t) ∈
      tgForwardItem c t h cap false m := by
  unfold tgForwardItem
  rcases Option.isSome_iff_exists.mp (supportedIg_send_isSome c t cap m hs) with ⟨a, ha⟩
  rw [ha]
  exact List.mem_singleton.mpr rfl

theorem tgLoop_mem_success (c : String) (t : Nat) (h cap : String) (ok : Nat → Bool)
    (ms : List IgMedia) : ∀ i : Nat, ∀ p ∈ List.enumFrom i ms, ∀ a : Action,
    tgMediaSendAction c t cap p.2 = some a → ok p.1 = true →
    a ∈ tgForwardMediaLoop c t h cap ok i ms := by
  induction ms with
  | nil => intro i p hp; cases hp
  | cons m ms ih =>
      intro i p hp a ha hok
      show a ∈ tgForwardItem c t h cap (ok i) m ++ tgForwardMediaLoop c t h cap ok (i + 1) ms
      rcases List.mem_cons.mp hp with rfl | hrest
      · rw [hok]
        exact List.mem_append_left _ (tgForwardItem_mem_success c t h cap m a ha)
      · exact List.mem_append_right _ (ih (i + 1) p hrest a ha hok)

theorem tgLoop_mem_failure (c : String) (t : Nat) (h cap : String) (ok : Nat → Bool)
    (ms : List IgMedia) : ∀ i : Nat, ∀ p ∈ List.enumFrom i ms,
    supportedIg p.2 = true → ok p.1 = false →
    Action.tgSendMessage c (h ++ "\n❌ Failed to forward " ++ p.2.mtype) (some t) ∈
      tgForwardMediaLoop c t h cap ok i ms := by
  induction ms with
  | nil => intro i p hp; cases hp
  | cons m ms ih =>
      intro i p hp hs hok
      show _ ∈ tgForwardItem c t h cap (ok i) m ++ tgForwardMediaLoop c t h cap ok (i + 1) ms
      rcases List.mem_cons.mp hp with rfl | hrest
      · rw [hok]
        exact List.mem_append_left _ (tgForwardItem_mem_failure c t h cap m hs)
      · exact List.mem_append_right _ (ih (i + 1) p hrest hs hok)

theorem igForwardItem_count_media (f : String → String) (tid : String) (ok : Bool)
    (m : TgMedia) :
    (igForwardItem f tid ok m).countP isIgMediaSend =
      if supportedTg m && ok then 1 else 0 := by
  unfold igForwardItem supportedTg
  by_cases h1 : m.mtype = "photo"
  · cases ok <;> simp [h1, isIgMediaSend, List.countP_cons, List.countP_nil]
  · by_cases h2 : m.mtype = "video"
    · cases ok <;> simp [h1, h2, isIgMediaSend, List.countP_cons, List.countP_nil]
    · cases ok <;> simp [h1, h2, isIgMediaSend, List.countP_cons, List.countP_nil]

theorem igForwardItem_count_text (f : String → String) (tid : String) (ok : Bool)
    (m : TgMedia) :
    (igForwardItem f tid ok m).countP isIgTextSend = if ok then 0 else 1 := by
  unfold igForwardItem
  by_cases h1 : m.mtype = "photo"
  · cases ok <;> simp [h1, isIgTextSend, List.countP_cons, List.countP_nil]
  · by_cases h2 : m.mtype = "video"
    · cases ok <;> simp [h1, h2, isIgTextSend, List.countP_cons, List.countP_nil]
    · cases ok <;> simp [h1, h2, isIgTextSend, List.countP_cons, List.countP_nil]

theorem igLoop_count_media (f : String → String) (tid : String) (ok : Nat → Bool)
    (ms : List TgMedia) : ∀ i : Nat,
    (igForwardMediaLoop f tid ok i ms).countP isIgMediaSend =
      (List.enumFrom i ms).countP (fun p => supportedTg p.2 && ok p.1) := by
  induction ms with
  | nil => intro i; rfl
  | cons m ms ih =>
      intro i
      show (igForwardItem f tid (ok i) m ++
        igForwardMediaLoop f tid ok (i + 1) ms).countP isIgMediaSend = _
      rw [List.countP_append, igForwardItem_count_media, ih (i + 1)]
      show _ = ((i, m) :: List.enumFrom (i + 1) ms).countP (fun p => supportedTg p.2 && ok p.1)
      rw [List.countP_cons]
      simp [Nat.add_comm]

theorem igLoop_count_text (f : String → String) (tid : String) (ok : Nat → Bool)
    (ms : List TgMedia) : ∀ i : Nat,
    (igForwardMediaLoop f tid ok i ms).countP isIgTextSend =
      (List.enumFrom i ms).countP (fun p => !(ok p.1)) := by
  induction ms with
  | nil => intro i; rfl
  | cons m ms ih =>
      intro i
      show (igForwardItem f tid (ok i) m ++
        igForwardMediaLoop f tid ok (i + 1) ms).countP isIgTextSend = _
      rw [List.countP_append, igForwardItem_count_text, ih (i + 1)]
      show _ = ((i, m) :: List.enumFrom (i + 1) ms).countP (fun p => !(ok p.1))
      rw [List.countP_cons]
      cases hok : ok i <;> simp [Nat.add_comm]

/-- C6 (confirmed) — attachments are forwarded independently in both
directions.  For `forwardToTelegram`: the header-prefixed body text is
always among the actions when nonempty (a failing attachment cannot revoke
it); the number of media sends equals the number of supported attachments
whose send succeeds; the number of plain text sends equals one for the body
text (when present) plus exactly one failure notice per supported
attachment whose send fails; every succeeding supported attachment's send
action is among the actions; and every failing supported attachment
contributes its in-place failure notice.  For `forwardToInstagram` the
analogous counts hold (there every failing per-attachment attempt, which
includes the file-URL resolution, produces one in-place text notice). -/
theorem c6_attachment_isolation (chatId : String) (ok : Nat → Bool) (msg : IgMessage)
    (tgTid : Nat) (fileUrl : String → String) (okB : Nat → Bool) (tmsg : TgMessage)
    (igTid : String) :
    (msg.text ≠ "" →
      Action.tgSendMessage chatId (igHeader msg.senderUsername ++ "\n" ++ msg.text) (some tgTid) ∈
        forwardToTelegram chatId ok msg tgTid) ∧
    (forwardToTelegram chatId ok msg tgTid).countP isMediaSend =
      (List.enumFrom 0 msg.media).countP (fun p => supportedIg p.2 && ok p.1) ∧
    (forwardToTelegram chatId ok msg tgTid).countP isTgMessageSend =
      (if msg.text = "" then 0 else 1) +
        (List.enumFrom 0 msg.media).countP (fun p => supportedIg p.2 && !(ok p.1)) ∧
    (∀ p ∈ List.enumFrom 0 msg.media, ∀ a : Action,
      tgMediaSendAction chatId tgTid (igCaption msg) p.2 = some a → ok p.1 = true →
      a ∈ forwardToTelegram chatId ok msg tgTid) ∧
    (∀ p ∈ List.enumFrom 0 msg.media, supportedIg p.2 = true → ok p.1 = false →
      Action.tgSendMessage chatId
          (igHeader msg.senderUsername ++ "\n❌ Failed to forward " ++ p.2.mtype) (some tgTid) ∈
        forwardToTelegram chatId ok msg tgTid) ∧
    (forwardToInstagram fileUrl okB tmsg igTid).countP isIgMediaSend =
      (List.enumFrom 0 tmsg.media).countP (fun p => supportedTg p.2 && okB p.1) ∧
    (forwardToInstagram fileUrl okB tmsg igTid).countP isIgTextSend =
      (if tmsg.text = "" then 0 else 1) +
        (List.enumFrom 0 tmsg.media).countP (fun p => !(okB p.1)) := by
  refine ⟨?_, ?_, ?_, ?_, ?_, ?_, ?_⟩
  · intro ht
    unfold forwardToTelegram
    rw [if_neg ht]
    exact List.mem_append_left _ (List.mem_singleton.mpr rfl)
  · unfold forwardToTelegram
    rw [List.countP_append, tgLoop_count_media]
    by_cases ht : msg.text = "" <;>
      simp [ht, isMediaSend, List.countP_cons, List.countP_nil]
  · unfold forwardToTelegram
    rw [List.countP_append, tgLoop_count_msg]
    by_cases ht : msg.text = "" <;>
      simp [ht, isTgMessageSend, List.countP_cons, List.countP_nil]
  · intro p hp a ha hok
    unfold forwardToTelegram
    exact List.mem_append_right _
      (tgLoop_mem_success chatId tgTid (igHeader msg.senderUsername) (igCaption msg)
        ok msg.media 0 p hp a ha hok)
  · intro p hp hs hok
    unfold forwardToTelegram
    exact List.mem_append_right _
      (tgLoop_mem_failure chatId tgTid (igHeader msg.senderUsername) (igCaption msg)
        ok msg.media 0 p hp hs hok)
  · unfold forwardToInstagram
    rw [List.countP_append, igLoop_count_media]
    by_cases ht : tmsg.text = "" <;>
      simp [ht, isIgMediaSend, List.countP_cons, List.countP_nil]
  · unfold forwardToInstagram
    rw [List.countP_append, igLoop_count_text]
    by_cases ht : tmsg.text = "" <;>
      simp [ht, isIgTextSend, List.countP_cons, List.countP_nil]

/-- C6 witness: the spec's own example — a message with three attachments
(image, video, voice) whose second send fails — still delivers the body
text, the first and the third attachment, plus exactly one failure notice:
two media sends and two text sends (body + one notice) in total. -/
theorem c6_attachment_isolation_witness :
    Action.tgSendMessage "c"
        (igHeader "alice" ++ "\n" ++ "hi") (some 7) ∈
      forwardToTelegram "c" (fun i => decide (i ≠ 1))
        { threadId := "t1", senderId := 7, senderUsername := "alice", text := "hi",
          timestampUs := 0,
          media := [{ mtype := "image", url := "u1" }, { mtype := "video", url := "u2" },
                    { mtype := "voice", url := "u3" }] } 7 ∧
    (forwardToTelegram "c" (fun i => decide (i ≠ 1))
        { threadId := "t1", senderId := 7, senderUsername := "alice", text := "hi",
          timestampUs := 0,
          media := [{ mtype := "image", url := "u1" }, { mtype := "video", url := "u2" },
                    { mtype := "voice", url := "u3" }] } 7).countP isMediaSend = 2 ∧
    (forwardToTelegram "c" (fun i => decide (i ≠ 1))
        { threadId := "t1", senderId := 7, senderUsername := "alice", text := "hi",
          timestampUs := 0,
          media := [{ mtype := "image", url := "u1" }, { mtype := "video", url := "u2" },
                    { mtype := "voice", url := "u3" }] } 7).countP isTgMessageSend = 2 := by
  have h := c6_attachment_isolation "c" (fun i => decide (i ≠ 1))
    { threadId := "t1", senderId := 7, senderUsername := "alice", text := "hi",
      timestampUs := 0,
      media := [{ mtype := "image", url := "u1" }, { mtype := "video", url := "u2" },
                { mtype := "voice", url := "u3" }] } 7 (fun f => f) (fun _ => true)
    { text := "", sender := "op", threadId := none, media := [] } "t"
  refine ⟨h.1 (by decide), ?_, ?_⟩
  · rw [h.2.1]
    decide
  · rw [h.2.2.1]
    decide

end BridgeModel
